import Mathlib

/-!
# File2JSON converter pipeline — shallow embedding

A shallow embedding of the `converter_tool` package (type detection,
handler registry, base converter template method, per-format extractors,
archive recursion, and the processing orchestrator), with theorems checking
the natural-language specification against it.

External library calls (python-magic, filetype, `json.load`,
`xml.etree.ElementTree.parse`, `csv.Sniffer`, `datetime`, zipfile/tarfile
readers, the filesystem) are modelled as explicit outcome values passed in:
the embedding covers the repository's own control flow and data handling,
which is exactly what the claims are about.  Python exceptions are modelled
with `Except PyError`; a caught exception is a matched `.error` branch.
-/

namespace ConverterTool

/-- Python exception values as far as this code distinguishes them. -/
inductive PyError where
  | valueError (msg : String)
  | ioError (msg : String)
  | other (msg : String)
deriving Repr, DecidableEq

/-- An opaque JSON-serializable payload (`data` of a conversion result).
The claims never inspect payload internals, only whether and where a
payload is attached, so its structure is left abstract. -/
inductive JsonVal where
  | null
  | str (s : String)
  | tagged (tag : String) (s : String)
deriving Repr, DecidableEq

/-! ## Handler registry (`registry.py`) -/

/-- The converter classes imported by `registry.py`. -/
inductive ConverterClass where
  | evtxConverter
  | pcapConverter
  | csvConverter
  | jsonConverter
  | xmlConverter
  | textConverter
  | pdfConverter
  | docxConverter
  | archiveConverter
  | binaryConverter
deriving Repr, DecidableEq

/-- `CONVERTER_REGISTRY`: map from detected types to converter classes,
in source order. -/
def CONVERTER_REGISTRY : List (String × ConverterClass) :=
  [ ("evtx", .evtxConverter)
  , ("pcap", .pcapConverter)
  , ("pcapng", .pcapConverter)
  , ("csv", .csvConverter)
  , ("json", .jsonConverter)
  , ("xml", .xmlConverter)
  , ("txt", .textConverter)
  , ("pdf", .pdfConverter)
  , ("docx", .docxConverter)
  , ("zip", .archiveConverter)
  , ("tar", .archiveConverter)
  , ("gzip", .archiveConverter)
  , ("binary", .binaryConverter) ]

/-- `get_converter`: `CONVERTER_REGISTRY.get(file_type, BinaryConverter)`. -/
def get_converter (file_type : String) : ConverterClass :=
  (CONVERTER_REGISTRY.lookup file_type).getD .binaryConverter

/-! ## Type detection (`utils.detect_file_type`) -/

/-- Outcome of the `magic.Magic(mime=True).from_file` attempt.
`unavailable` is the `ImportError` branch, `failed` any other exception;
both fall through to the next strategy. -/
inductive MagicOutcome where
  | unavailable
  | failed (msg : String)
  | mime (m : String)
deriving Repr, DecidableEq

/-- Outcome of the `filetype.guess` attempt.  `noGuess` is `kind is None`. -/
inductive FiletypeOutcome where
  | unavailable
  | failed (msg : String)
  | noGuess
  | kind (extension : String) (mime : String)
deriving Repr, DecidableEq

/-- `mime_to_type` table inside `detect_file_type`. -/
def mime_to_type : List (String × String) :=
  [ ("application/x-evtx", "evtx")
  , ("application/vnd.tcpdump.pcap", "pcap")
  , ("application/vnd.tcpdump.pcapng", "pcapng")
  , ("application/pdf", "pdf")
  , ("application/vnd.openxmlformats-officedocument.wordprocessingml.document", "docx")
  , ("application/zip", "zip")
  , ("application/gzip", "gzip")
  , ("application/x-tar", "tar")
  , ("text/csv", "csv")
  , ("application/json", "json")
  , ("application/xml", "xml")
  , ("text/xml", "xml")
  , ("text/plain", "txt") ]

/-- `ext_to_type` table used for the `filetype` library's reported kind. -/
def ft_ext_to_type : List (String × String) :=
  [ (".evtx", "evtx"), (".pcap", "pcap"), (".pcapng", "pcapng") ]

/-- `extension_map`: the extension-based fallback table. -/
def extension_map : List (String × String) :=
  [ (".evtx", "evtx")
  , (".pcap", "pcap")
  , (".pcapng", "pcapng")
  , (".csv", "csv")
  , (".json", "json")
  , (".xml", "xml")
  , (".log", "txt")
  , (".txt", "txt")
  , (".pdf", "pdf")
  , (".docx", "docx")
  , (".zip", "zip")
  , (".tar", "tar")
  , (".gz", "gzip")
  , (".tgz", "tar") ]

/-- The name information `detect_file_type` reads off a `pathlib.Path`:
its list of suffixes (Python `Path.suffixes`, e.g. `[".tar", ".gz"]`). -/
structure PathName where
  suffixes : List String
deriving Repr, DecidableEq

/-- Python `str.lower()` over the ASCII range (suffixes in this code are
ASCII); character-list based so that it evaluates by kernel reduction. -/
def pyLower (s : String) : String :=
  String.mk (s.data.map (fun c =>
    if 'A' ≤ c ∧ c ≤ 'Z' then Char.ofNat (c.toNat + 32) else c))

/-- `file_path.suffix.lower()`: the last suffix, lowercased (empty when the
name has no suffix). -/
def PathName.extension (p : PathName) : String :=
  pyLower ((p.suffixes.getLast?).getD "")

/-- Step 3 of the cascade: extension-based fallback, including the
`file_path.suffixes[-2:] == ['.tar', '.gz']` special case. -/
def extFallback (p : PathName) : String × String :=
  if p.suffixes.drop (p.suffixes.length - 2) = [".tar", ".gz"] then
    ("tar", "application/x-gzip")
  else
    match extension_map.lookup p.extension with
    | some t => (t, "application/octet-stream")
    | none => ("binary", "application/octet-stream")

/-- Step 2 of the cascade: the `filetype` library attempt. -/
def detectStep2 (ft : FiletypeOutcome) (p : PathName) : String × String :=
  match ft with
  | .kind ext m =>
    match ft_ext_to_type.lookup ("." ++ ext) with
    | some t => (t, m)
    | none => extFallback p
  | _ => extFallback p

/-- `detect_file_type`: python-magic MIME table, then the `filetype`
library, then the extension fallback.  Library unavailability and library
errors both degrade to the next step; the function never raises. -/
def detect_file_type (magic : MagicOutcome) (ft : FiletypeOutcome)
    (p : PathName) : String × String :=
  match magic with
  | .mime m =>
    match mime_to_type.lookup m with
    | some t => (t, m)
    | _ => detectStep2 ft p
  | _ => detectStep2 ft p

/-! ## Metadata extraction (`utils.calculate_hashes`, `utils.extract_metadata`) -/

/-- The three hex digests computed in one streaming pass. -/
structure HashTriple where
  sha256 : String
  sha1 : String
  md5 : String
deriving Repr, DecidableEq

/-- `calculate_hashes`: on any exception while reading, returns
empty-string digests instead of propagating.  The streaming read and the
digest computation are the external part; its outcome is the argument. -/
def calculate_hashes (readOutcome : Except PyError HashTriple) : HashTriple :=
  match readOutcome with
  | .ok h => h
  | .error _ => { sha256 := "", sha1 := "", md5 := "" }

/-- What `file_path.stat()` reports.  `st_mtime` is a float in Python;
the claims only need its value and its truthiness (exactly `0` is falsy),
so integral epoch seconds are used. -/
structure FileStat where
  size : Nat
  mtime : Int
deriving Repr, DecidableEq

/-- The `Metadata` dictionary. -/
structure Metadata where
  size : Nat
  mtime : Int
  mtime_iso : Option String
  sha256 : String
  sha1 : String
  md5 : String
deriving Repr, DecidableEq

/-- `extract_metadata`: size and mtime from `stat`, `mtime_iso` left
`None` ("will be set by the converter"), digests filled in (empty strings
when `include_hashes` is false). -/
def extract_metadata (stat : FileStat) (readOutcome : Except PyError HashTriple)
    (include_hashes : Bool) : Metadata :=
  { size := stat.size
  , mtime := stat.mtime
  , mtime_iso := none
  , sha256 := if include_hashes then (calculate_hashes readOutcome).sha256 else ""
  , sha1 := if include_hashes then (calculate_hashes readOutcome).sha1 else ""
  , md5 := if include_hashes then (calculate_hashes readOutcome).md5 else "" }

/-! ## Base converter template method (`base_converter.BaseConverter.convert`) -/

/-- The external world of one `convert` call: the stat result, the hash
read outcome, `datetime.fromtimestamp(..).isoformat()` as a function of
the epoch value, `datetime.utcnow().isoformat()`, and what
`detect_file_type` returns for this path. -/
structure ConvertEnv where
  stat : FileStat
  hashRead : Except PyError HashTriple
  fromtimestampIso : Int → String
  utcnowIso : String
  detected : String × String

/-- The `ConversionResult` envelope, polymorphic in the handler payload. -/
structure Envelope (α : Type) where
  source_filename : String
  source_path : String
  detected_type : String
  mimetype : String
  converted_at : String
  metadata : Metadata
  data : α
deriving Repr, DecidableEq

/-- `BaseConverter.convert`: detect type, extract metadata, derive
`mtime_iso` when `metadata["mtime"]` is truthy (nonzero), run
`_extract_data` (its outcome is `extractOutcome`), assemble the envelope.
Any exception from `_extract_data` is logged and re-raised unchanged. -/
def BaseConverter.convert (env : ConvertEnv) (name path : String)
    (extractOutcome : Except PyError α) : Except PyError (Envelope α) :=
  let md := extract_metadata env.stat env.hashRead true
  let md := if md.mtime ≠ 0 then
      { md with mtime_iso := some (env.fromtimestampIso md.mtime) }
    else md
  match extractOutcome with
  | .error e => .error e
  | .ok d =>
    .ok { source_filename := name
        , source_path := path
        , detected_type := env.detected.1
        , mimetype := env.detected.2
        , converted_at := env.utcnowIso ++ "Z"
        , metadata := md
        , data := d }

/-! ## JSON converter (`json_converter.JsonConverter._extract_data`) -/

/-- Outcome of `json.load` on the opened file: a parsed value, a
`json.JSONDecodeError` (malformed JSON), or some other exception
(e.g. an I/O or decode error while reading). -/
inductive JsonLoadOutcome where
  | ok (v : JsonVal)
  | decodeError (msg : String)
  | otherError (e : PyError)
deriving Repr, DecidableEq

/-- `JsonConverter._extract_data`: a `JSONDecodeError` is logged and
re-raised as `ValueError("Invalid JSON: ...")`; any other exception is
logged and re-raised unchanged; a parsed value is returned as-is. -/
def JsonConverter.extractData (load : JsonLoadOutcome) : Except PyError JsonVal :=
  match load with
  | .ok v => .ok v
  | .decodeError m => .error (.valueError ("Invalid JSON: " ++ m))
  | .otherError e => .error e

/-! ## XML converter (`xml_converter.XmlConverter`) -/

/-- Python truthiness-aware strip used by `_element_to_dict`:
`element.text.strip() if element.text and element.text.strip() else None`. -/
def pyStripToNull (text : Option String) : Option String :=
  match text with
  | none => none
  | some s => if s ≠ "" ∧ s.trim ≠ "" then some s.trim else none

/-- An `xml.etree.ElementTree` element as `_element_to_dict` reads it. -/
inductive XmlElement where
  | mk (tag : String) (attrib : List (String × String))
       (text : Option String) (tail : Option String)
       (children : List XmlElement)
deriving Repr

/-- The JSON-friendly dictionary `_element_to_dict` produces:
`children` omitted (`none`) when there are no children, `tail` omitted
when empty. -/
inductive XmlDict where
  | node (tag : String) (attributes : List (String × String))
         (text : Option String) (children : Option (List XmlDict))
         (tail : Option String)
deriving Repr

/-- `XmlConverter._element_to_dict`, recursively over the element tree. -/
def elementToDict : XmlElement → XmlDict
  | .mk tag attrib text tail children =>
    let kids := children.attach.map (fun c => elementToDict c.1)
    .node tag attrib (pyStripToNull text)
      (if kids.isEmpty then none else some kids)
      (pyStripToNull tail)
decreasing_by
  cases c with
  | mk v h => simpa using Nat.lt_of_lt_of_le (List.sizeOf_lt_of_mem h) (by simp)

/-- Outcome of `ET.parse(...).getroot()`: a root element, an
`ET.ParseError` (malformed XML), or some other exception. -/
inductive XmlParseOutcome where
  | ok (root : XmlElement)
  | parseError (msg : String)
  | otherError (e : PyError)
deriving Repr

/-- `XmlConverter._extract_data`: a `ParseError` is logged and re-raised
as `ValueError("Invalid XML: ...")`; any other exception re-raised
unchanged; on success the root element is rendered by
`_element_to_dict`. -/
def XmlConverter.extractData (parse : XmlParseOutcome) : Except PyError XmlDict :=
  match parse with
  | .ok root => .ok (elementToDict root)
  | .parseError m => .error (.valueError ("Invalid XML: " ++ m))
  | .otherError e => .error e

/-! ## CSV converter (`csv_converter.CsvConverter._extract_data`) -/

/-- One row as `dict(row)` of a `csv.DictReader`: field names zipped with
the row's values, missing values filled with `None`.  (Surplus values go
under the `None` restkey and are dropped here; no claim touches them.) -/
def dictRow : List String → List String → List (String × Option String)
  | [], _ => []
  | h :: hs, [] => (h, none) :: dictRow hs []
  | h :: hs, v :: vs => (h, some v) :: dictRow hs vs

/-- The dictionary returned by `CsvConverter._extract_data`. -/
structure CsvData where
  column_names : List String
  row_count : Nat
  rows : List (List (String × Option String))
deriving Repr, DecidableEq

/-- `CsvConverter._extract_data`: sniff the delimiter on the first 1KB
(`csv.Sniffer`; an exception there is logged and re-raised), then read
with `csv.DictReader`: the first record becomes `fieldnames`
(`None`-as-`[]` when the file is empty), every further record becomes a
row dict.  `records` gives the reader's records for the sniffed
delimiter. -/
def CsvConverter.extractData (sniffOutcome : Except PyError Char)
    (records : Char → List (List String)) : Except PyError CsvData :=
  match sniffOutcome with
  | .error e => .error e
  | .ok d =>
    match records d with
    | [] => .ok { column_names := [], row_count := 0, rows := [] }
    | header :: rest =>
      .ok { column_names := header
          , row_count := rest.length
          , rows := rest.map (dictRow header) }

/-! ## Text converter (`text_converter.TextConverter`)

The two timestamp regexes are compiled from the source patterns into
direct matchers over `List Char` (ASCII model of `\d` and `\w`):

* `ISO8601_PATTERN`:
  `\d{4}-\d{2}-\d{2}[T ]\d{2}:\d{2}:\d{2}(?:\.\d+)?(?:Z|[+-]\d{2}:\d{2})?`
* `EPOCH_PATTERN`: `\b\d{10}(?:\.\d+)?\b`

`re.search` returns the leftmost match; within one starting position the
optional groups are greedy, with the one backtracking case of
`EPOCH_PATTERN` (a fractional part whose trailing `\b` fails falls back to
the empty option) made explicit. -/

/-- Python `\w` over ASCII: letters, digits, underscore. -/
def isWordChar (c : Char) : Bool :=
  c.isAlphanum || c = '_'

/-- Match exactly `n` digits, returning them and the rest. -/
def takeDigits : Nat → List Char → Option (List Char × List Char)
  | 0, cs => some ([], cs)
  | _ + 1, [] => none
  | n + 1, c :: cs =>
    if c.isDigit then (takeDigits n cs).map (fun p => (c :: p.1, p.2))
    else none

/-- Match one literal character. -/
def matchChar (x : Char) : List Char → Option (List Char × List Char)
  | [] => none
  | c :: cs => if c = x then some ([c], cs) else none

/-- Greedy optional group `(?:\.\d+)?` (nothing after it constrains it
inside `ISO8601_PATTERN`). -/
def matchFrac (cs : List Char) : List Char × List Char :=
  match cs with
  | '.' :: rest =>
    let ds := rest.takeWhile Char.isDigit
    if ds.isEmpty then ([], cs)
    else ('.' :: ds, rest.dropWhile Char.isDigit)
  | _ => ([], cs)

/-- Greedy optional group `(?:Z|[+-]\d{2}:\d{2})?`. -/
def matchTz (cs : List Char) : List Char × List Char :=
  match cs with
  | 'Z' :: rest => (['Z'], rest)
  | c :: rest =>
    if c = '+' ∨ c = '-' then
      match takeDigits 2 rest with
      | some (d1, r1) =>
        match r1 with
        | ':' :: r2 =>
          match takeDigits 2 r2 with
          | some (d2, r3) => (c :: (d1 ++ ':' :: d2), r3)
          | none => ([], cs)
        | _ => ([], cs)
      | none => ([], cs)
    else ([], cs)
  | [] => ([], cs)

/-- Attempt `ISO8601_PATTERN` at the start of `cs`; on success return the
matched characters. -/
def matchIsoAt (cs : List Char) : Option (List Char) := do
  let (y, r) ← takeDigits 4 cs
  let (s1, r) ← matchChar '-' r
  let (mo, r) ← takeDigits 2 r
  let (s2, r) ← matchChar '-' r
  let (d, r) ← takeDigits 2 r
  let (sep, r) ← match r with
    | c :: rest => if c = 'T' ∨ c = ' ' then some ([c], rest) else none
    | [] => none
  let (h, r) ← takeDigits 2 r
  let (c1, r) ← matchChar ':' r
  let (mi, r) ← takeDigits 2 r
  let (c2, r) ← matchChar ':' r
  let (s, r) ← takeDigits 2 r
  let (f, r) := matchFrac r
  let (tz, _) := matchTz r
  pure (y ++ s1 ++ mo ++ s2 ++ d ++ sep ++ h ++ c1 ++ mi ++ c2 ++ s ++ f ++ tz)

/-- `ISO8601_PATTERN.search`: leftmost match, as a string. -/
def searchIso : List Char → Option String
  | [] => none
  | c :: cs =>
    match matchIsoAt (c :: cs) with
    | some m => some (String.mk m)
    | none => searchIso cs

/-- `\b` after a digit: end of input or a non-word character. -/
def boundaryAfter : List Char → Bool
  | [] => true
  | c :: _ => !isWordChar c

/-- Attempt `EPOCH_PATTERN` (past its leading `\b`) at the start of `cs`:
exactly ten digits, a greedy optional fractional part, then `\b`; if the
fractional part's trailing `\b` fails, backtrack to the empty option
(shorter fractional parts can never restore the boundary since the next
character is then a digit). -/
def matchEpochAt (cs : List Char) : Option (List Char) := do
  let (ds, rest) ← takeDigits 10 cs
  match rest with
  | '.' :: r2 =>
    let fs := r2.takeWhile Char.isDigit
    if !fs.isEmpty ∧ boundaryAfter (r2.dropWhile Char.isDigit) then
      pure (ds ++ '.' :: fs)
    else if boundaryAfter rest then pure ds
    else none
  | _ => if boundaryAfter rest then pure ds else none

/-- Scan for `EPOCH_PATTERN` left to right, tracking the previous
character for the leading `\b` (start of string, or a non-word character
before the first digit). -/
def searchEpochFrom : Option Char → List Char → Option String
  | _, [] => none
  | prev, c :: rest =>
    let bOk := match prev with
      | none => true
      | some p => !isWordChar p
    if bOk then
      match matchEpochAt (c :: rest) with
      | some m => some (String.mk m)
      | none => searchEpochFrom (some c) rest
    else searchEpochFrom (some c) rest

/-- `EPOCH_PATTERN.search`: leftmost match, as a string. -/
def searchEpoch (cs : List Char) : Option String :=
  searchEpochFrom none cs

/-- The dictionary `_extract_timestamp` returns for a hit. -/
structure TsInfo where
  value : String
  raw : String
  format : String
deriving Repr, DecidableEq

/-- The string handed to `datetime.fromisoformat`:
`ts_str.replace('Z', '+00:00')` when `'T' in ts_str`, else `ts_str`.
The replaced pattern is the single character `Z`, so the replacement is
performed character-wise (kernel-reducible, unlike `String.replace`). -/
def isoParseArg (ts : String) : String :=
  if ts.data.contains 'T' then
    String.mk (ts.data.flatMap (fun c => if c = 'Z' then "+00:00".data else [c]))
  else ts

/-- The ISO attempt of `_extract_timestamp`: search `ISO8601_PATTERN`;
on a match, try `datetime.fromisoformat` (outcome given by `fromIso`,
`none` when it raises); a parse failure is swallowed (`except: pass`). -/
def isoStep (fromIso : String → Option String) (text : String) : Option TsInfo :=
  match searchIso text.data with
  | some ts =>
    match fromIso (isoParseArg ts) with
    | some v => some { value := v, raw := ts, format := "iso8601" }
    | none => none
  | none => none

/-- The epoch attempt of `_extract_timestamp`: search `EPOCH_PATTERN`;
on a match, try `float` + `datetime.fromtimestamp` (outcome given by
`fromEpoch`); `ValueError`/`OSError` are swallowed. -/
def epochStep (fromEpoch : String → Option String) (text : String) : Option TsInfo :=
  match searchEpoch text.data with
  | some es =>
    match fromEpoch es with
    | some v => some { value := v, raw := es, format := "epoch" }
    | none => none
  | none => none

/-- `TextConverter._extract_timestamp`: the ISO pattern is tried first;
if it produces no parsed timestamp (no match, or the matched substring
fails to parse), the epoch pattern is tried; `None` when neither
produces one.  Total: line processing never aborts. -/
def extractTimestamp (fromIso fromEpoch : String → Option String)
    (text : String) : Option TsInfo :=
  match isoStep fromIso text with
  | some t => some t
  | none => epochStep fromEpoch text

/-- Python `line.rstrip('\n\r')`. -/
def pyRstripNewlines (s : String) : String :=
  String.mk ((s.data.reverse.dropWhile (fun c => c = '\n' ∨ c = '\r')).reverse)

/-- One line object of the text converter's output. -/
structure LineObj where
  line_number : Nat
  text : String
  timestamp : Option TsInfo
  timestamp_format : Option String
deriving Repr, DecidableEq

/-- `TextConverter._extract_data` on the file's lines (file reading is
external; `rawLines` are the lines as iterated, newline included):
1-indexed line objects, each with the timestamp extracted from the raw
line text when present. -/
def TextConverter.extractData (fromIso fromEpoch : String → Option String)
    (rawLines : List String) : Nat × List LineObj :=
  let lines := (rawLines.enumFrom 1).map (fun p =>
    let ts := extractTimestamp fromIso fromEpoch p.2
    { line_number := p.1
    , text := pyRstripNewlines p.2
    , timestamp := ts
    , timestamp_format := ts.map (·.format) })
  (lines.length, lines)

/-! ## Archive converter (`archive_converter.ArchiveConverter`)

Each entry carries the outcomes of the external operations performed on
it: reading its bytes out of the container, `detect_file_type` on the
scratch copy, and the nested handler's `convert` call.  The nested
`convert` outcome is a function of the `recursion_depth` assigned to the
nested handler (`self.recursion_depth - 1`; handlers without that
attribute ignore it).  `.ok v` stands for a successful `convert` whose
`["data"]` field is `v`. -/

/-- A zip entry: its central-directory info (`getinfo`), plus external
outcomes.  `readOutcome` is `zip_ref.read(file_name)` (bytes opaque),
which happens before any scratch file exists. -/
structure ZipEntry where
  filename : String
  file_size : Nat
  compress_size : Nat
  readOutcome : Except PyError Unit
  detectedType : String
  convertOutcome : Nat → Except PyError JsonVal

/-- A tar member (`getmembers`), plus external outcomes.
`extractOutcome` is `tar_ref.extractfile(member)` followed by `.read()`,
performed after the scratch file has been opened: `.ok true` means bytes
were written, `.ok false` means `extractfile` returned `None` (nothing
written), `.error` means the call raised. -/
structure TarMember where
  name : String
  size : Nat
  isdir : Bool
  mode : Nat
  mtime : Int
  extractOutcome : Except PyError Bool
  detectedType : String
  convertOutcome : Nat → Except PyError JsonVal

/-- The per-entry dictionary built for a zip entry. -/
structure ZipFileObj where
  filename : String
  size : Nat
  compressed_size : Nat
  is_directory : Bool
  converted_content : Option JsonVal
deriving Repr, DecidableEq

/-- The per-entry dictionary built for a tar member. -/
structure TarFileObj where
  filename : String
  size : Nat
  is_directory : Bool
  mode : String
  mtime : Int
  converted_content : Option JsonVal
deriving Repr, DecidableEq

/-- Result of processing one entry, together with the scratch-file trace
for that entry: whether a scratch file was created, and whether it was
removed before the entry's processing finished. -/
structure EntryStep (α : Type) where
  obj : α
  scratchCreated : Bool
  scratchRemoved : Bool
deriving Repr, DecidableEq

/-- Python `oct(n)` for the nonnegative mode values tar reports. -/
def pyOct (n : Nat) : String :=
  "0o" ++ String.mk (Nat.toDigits 8 n)

/-- Python `file_name.endswith('/')`, character-list based so that it
evaluates by kernel reduction. -/
def pyEndsWithSlash (s : String) : Bool :=
  s.data.getLast? == some '/'

/-- The loop body of `_extract_zip` for one entry, at recursion depth
`depth` (`self.recursion_depth`).  For a non-directory with positive
budget: read the bytes (an exception here is caught by the per-entry
handler before any scratch file exists), write them to a scratch file,
then inside `try/finally`: detect the scratch file's type and, when it is
not `binary` (and the budget is still positive), run the nested handler's
`convert` with `recursion_depth` set to `depth - 1`, attaching its `data`
on success; an exception from this attempt is caught and logged; the
`finally` unlinks the scratch file. -/
def processZipEntry (depth : Nat) (e : ZipEntry) : EntryStep ZipFileObj :=
  let base : ZipFileObj :=
    { filename := e.filename
    , size := e.file_size
    , compressed_size := e.compress_size
    , is_directory := pyEndsWithSlash e.filename
    , converted_content := none }
  if !base.is_directory ∧ depth > 0 then
    match e.readOutcome with
    | .error _ => { obj := base, scratchCreated := false, scratchRemoved := false }
    | .ok _ =>
      let obj :=
        if e.detectedType ≠ "binary" ∧ depth > 0 then
          match e.convertOutcome (depth - 1) with
          | .ok d => { base with converted_content := some d }
          | .error _ => base
        else base
      { obj := obj, scratchCreated := true, scratchRemoved := true }
  else
    { obj := base, scratchCreated := false, scratchRemoved := false }

/-- The loop body of `_extract_tar` for one member.  Unlike the zip
branch, `tempfile.NamedTemporaryFile(delete=False)` creates the scratch
file first and the member's bytes are extracted afterwards, inside the
same per-entry `try` but before the `try/finally` that unlinks the
scratch: an exception from `extractfile`/`read` leaves the scratch file
behind. -/
def processTarEntry (depth : Nat) (m : TarMember) : EntryStep TarFileObj :=
  let base : TarFileObj :=
    { filename := m.name
    , size := m.size
    , is_directory := m.isdir
    , mode := pyOct m.mode
    , mtime := m.mtime
    , converted_content := none }
  if !m.isdir ∧ depth > 0 then
    match m.extractOutcome with
    | .error _ => { obj := base, scratchCreated := true, scratchRemoved := false }
    | .ok _ =>
      let obj :=
        if m.detectedType ≠ "binary" ∧ depth > 0 then
          match m.convertOutcome (depth - 1) with
          | .ok d => { base with converted_content := some d }
          | .error _ => base
        else base
      { obj := obj, scratchCreated := true, scratchRemoved := true }
  else
    { obj := base, scratchCreated := false, scratchRemoved := false }

/-- The dictionary `_extract_zip` / `_extract_tar` return. -/
structure ArchiveData (α : Type) where
  archive_type : String
  file_count : Nat
  files : List α
deriving Repr, DecidableEq

/-- `ArchiveConverter._extract_zip`: open the container (`openOutcome` is
`zipfile.ZipFile` + `namelist` + per-name `getinfo`; an exception there
is logged and re-raised), process every entry in order, and return the
listing.  Per-entry failures never escape the loop body. -/
def extractZip (depth : Nat) (openOutcome : Except PyError (List ZipEntry)) :
    Except PyError (ArchiveData ZipFileObj) :=
  match openOutcome with
  | .error e => .error e
  | .ok entries =>
    let files := entries.map (fun e => (processZipEntry depth e).obj)
    .ok { archive_type := "zip", file_count := files.length, files := files }

/-- `ArchiveConverter._extract_tar`: same structure over tar members. -/
def extractTar (depth : Nat) (openOutcome : Except PyError (List TarMember)) :
    Except PyError (ArchiveData TarFileObj) :=
  match openOutcome with
  | .error e => .error e
  | .ok members =>
    let files := members.map (fun m => (processTarEntry depth m).obj)
    .ok { archive_type := "tar", file_count := files.length, files := files }

/-! ## Processing orchestrator (`processor.FileProcessor`) -/

/-- One discovered regular file together with the outcomes of the
external steps taken on it: the detected type, the converter's `convert`
call (`.ok` carries the envelope as an opaque payload), whether the
derived output path already exists, and `save_json`. -/
structure FileJob where
  path : String
  detectedType : String
  convertOutcome : Except PyError JsonVal
  outputExists : Bool
  saveOutcome : Except PyError Unit

/-- The `FileProcessor` configuration relevant to a run. -/
structure ProcConfig where
  overwrite : Bool
  formats_filter : Option (List String)

/-- The body of `_process_single_file`'s `try` block: detect type, apply
the formats filter (a `None` or empty filter list is falsy and disables
filtering), resolve and build the converter, `convert`, skip when the
output exists and overwrite is off, `save_json`, and return the converted
data.  `.ok none` is a skip; `.error` is an exception escaping the
body. -/
def processSingleFileBody (cfg : ProcConfig) (job : FileJob) :
    Except PyError (Option JsonVal) :=
  let filtered := match cfg.formats_filter with
    | none => false
    | some fs => decide (fs ≠ [] ∧ job.detectedType ∉ fs)
  if filtered then .ok none
  else
    match job.convertOutcome with
    | .error e => .error e
    | .ok d =>
      if job.outputExists ∧ !cfg.overwrite then .ok none
      else
        match job.saveOutcome with
        | .error e => .error e
        | .ok _ => .ok (some d)

/-- `FileProcessor._process_single_file`: the whole body runs under
`try: ... except Exception: return None` — every exception is caught,
logged, and turned into `None`.  The function itself never raises. -/
def processSingleFile (cfg : ProcConfig) (job : FileJob) : Option JsonVal :=
  match processSingleFileBody cfg job with
  | .ok r => r
  | .error _ => none

/-- The mutable run state: `converted_files` and `failed_files`. -/
structure RunState where
  converted_files : List JsonVal
  failed_files : List (String × String)
deriving Repr, DecidableEq

/-- Render an exception the way `str(e)` feeds the failure record. -/
def errText : PyError → String
  | .valueError m => m
  | .ioError m => m
  | .other m => m

/-- What one worker future delivers back to the `as_completed` loop:
`_process_single_file` catches every exception, so `future.result()`
yields its return value and never re-raises.  The `Except` type records
that the loop is written to catch a raising future. -/
def futureResult (cfg : ProcConfig) (job : FileJob) :
    Except PyError (Option JsonVal) :=
  .ok (processSingleFile cfg job)

/-- The `as_completed` collection loop of `FileProcessor.process`: a
non-`None` result is appended to `converted_files`; a raising future
would be appended to `failed_files`.  Completion order does not affect
the final counts; submission order is used. -/
def collectResults (cfg : ProcConfig) (jobs : List FileJob) : RunState :=
  jobs.foldl
    (fun st job =>
      match futureResult cfg job with
      | .ok (some d) => { st with converted_files := st.converted_files ++ [d] }
      | .ok none => st
      | .error e =>
        { st with failed_files := st.failed_files ++ [(job.path, errText e)] })
    { converted_files := [], failed_files := [] }

/-- The counts dictionary `FileProcessor.process` returns. -/
structure RunCounts where
  successful : Nat
  failed : Nat
deriving Repr, DecidableEq

/-- `FileProcessor.process` on a non-empty discovered file set: run every
file through the pool, collect, and return
`{"successful": len(converted_files), "failed": len(failed_files)}`. -/
def FileProcessor.process (cfg : ProcConfig) (jobs : List FileJob) : RunCounts :=
  let st := collectResults cfg jobs
  { successful := st.converted_files.length, failed := st.failed_files.length }

/-! ## Theorems -/

/-- C8: registry resolution is a pure total lookup that never fails: any
tag not present in `CONVERTER_REGISTRY` (including any tag outside the
closed set) resolves to the Binary handler constructor, and every
recognized tag resolves to its registered handler constructor. -/
theorem claim_C8_registry_resolution :
    (∀ tag : String, CONVERTER_REGISTRY.lookup tag = none →
      get_converter tag = ConverterClass.binaryConverter) ∧
    get_converter "evtx" = ConverterClass.evtxConverter ∧
    get_converter "pcap" = ConverterClass.pcapConverter ∧
    get_converter "pcapng" = ConverterClass.pcapConverter ∧
    get_converter "csv" = ConverterClass.csvConverter ∧
    get_converter "json" = ConverterClass.jsonConverter ∧
    get_converter "xml" = ConverterClass.xmlConverter ∧
    get_converter "txt" = ConverterClass.textConverter ∧
    get_converter "pdf" = ConverterClass.pdfConverter ∧
    get_converter "docx" = ConverterClass.docxConverter ∧
    get_converter "zip" = ConverterClass.archiveConverter ∧
    get_converter "tar" = ConverterClass.archiveConverter ∧
    get_converter "gzip" = ConverterClass.archiveConverter ∧
    get_converter "binary" = ConverterClass.binaryConverter := by
  refine ⟨fun tag h => ?_, rfl, rfl, rfl, rfl, rfl, rfl, rfl, rfl, rfl, rfl, rfl, rfl, rfl⟩
  simp [get_converter, h]

/-- Witness for C8: the unregistered tag `"elf"` resolves to the binary
handler. -/
theorem claim_C8_witness :
    get_converter "elf" = ConverterClass.binaryConverter :=
  claim_C8_registry_resolution.1 "elf" (by decide)

/-- C9: when type detection reaches the extension-table fallback (both
content-sniffing strategies miss), a name whose last two suffixes are
`.tar` and `.gz` resolves to tag `tar` with mimetype `application/x-gzip`;
any other name resolves via the lowercased-suffix table with mimetype
`application/octet-stream`; a suffix absent from the table yields
`binary` with `application/octet-stream`. -/
theorem claim_C9_extension_fallback :
    (∀ p : PathName,
      detect_file_type .unavailable .unavailable p = extFallback p) ∧
    (∀ pre : List String,
      extFallback ⟨pre ++ [".tar", ".gz"]⟩ = ("tar", "application/x-gzip")) ∧
    (∀ (p : PathName) (t : String),
      p.suffixes.drop (p.suffixes.length - 2) ≠ [".tar", ".gz"] →
      extension_map.lookup p.extension = some t →
      extFallback p = (t, "application/octet-stream")) ∧
    (∀ p : PathName,
      p.suffixes.drop (p.suffixes.length - 2) ≠ [".tar", ".gz"] →
      extension_map.lookup p.extension = none →
      extFallback p = ("binary", "application/octet-stream")) := by
  refine ⟨fun p => rfl, fun pre => ?_, fun p t h1 h2 => ?_, fun p h1 h2 => ?_⟩
  · have hdrop : (pre ++ [".tar", ".gz"]).drop ((pre ++ [".tar", ".gz"]).length - 2)
        = [".tar", ".gz"] := by
      have hlen : (pre ++ [".tar", ".gz"]).length - 2 = pre.length := by
        simp
      rw [hlen]
      exact List.drop_left pre [".tar", ".gz"]
    simp [extFallback, hdrop]
  · simp [extFallback, h1, h2]
  · simp [extFallback, h1, h2]

/-- Witness for C9: a `.tar.gz` name, a known suffix (`.CSV`, lowercased
to `.csv`), and an unknown suffix (`.exe`), each through the fallback. -/
theorem claim_C9_witness :
    extFallback ⟨[".tar", ".gz"]⟩ = ("tar", "application/x-gzip") ∧
    extFallback ⟨[".backup", ".CSV"]⟩ = ("csv", "application/octet-stream") ∧
    extFallback ⟨[".exe"]⟩ = ("binary", "application/octet-stream") :=
  ⟨claim_C9_extension_fallback.2.1 [],
   claim_C9_extension_fallback.2.2.1 ⟨[".backup", ".CSV"]⟩ "csv" (by decide) (by decide),
   claim_C9_extension_fallback.2.2.2 ⟨[".exe"]⟩ (by decide) (by decide)⟩

/-- C10: in every `ConversionResult` produced by `convert`, the
metadata's `mtime_iso` is the ISO rendering of `mtime` exactly when
`mtime` is truthy; for a file whose modification time is exactly `0`
(the epoch), `mtime_iso` stays `None` even though `0` is a valid
epoch-seconds value. -/
theorem claim_C10_mtime_iso_truthiness (env : ConvertEnv) (name path : String)
    (d : JsonVal) :
    (BaseConverter.convert env name path (.ok d)).map
        (fun r => r.metadata.mtime_iso)
      = .ok (if env.stat.mtime = 0 then none
             else some (env.fromtimestampIso env.stat.mtime)) := by
  by_cases h : env.stat.mtime = 0 <;>
    simp [BaseConverter.convert, extract_metadata, Except.map, h]

/-- C5: a file whose JSON fails to parse (`json.JSONDecodeError`) and a
file whose XML fails to parse (`ET.ParseError`, e.g. unbalanced tags)
both make the conversion raise a declared invalid-input `ValueError`
carrying an `Invalid JSON` / `Invalid XML` message, not an undeclared
generic exception type. -/
theorem claim_C5_invalid_input_errors (m : String) :
    JsonConverter.extractData (.decodeError m)
        = .error (.valueError ("Invalid JSON: " ++ m)) ∧
    XmlConverter.extractData (.parseError m)
        = .error (.valueError ("Invalid XML: " ++ m)) :=
  ⟨rfl, rfl⟩

/-- C6: for a valid CSV whose body is a header line only (the sniffed
reader yields exactly one record), extraction succeeds and returns
`row_count = 0` and `rows = []` (with the header as the column names). -/
theorem claim_C6_header_only_csv (d : Char) (header : List String)
    (sniffOutcome : Except PyError Char) (records : Char → List (List String))
    (hs : sniffOutcome = .ok d) (hr : records d = [header]) :
    CsvConverter.extractData sniffOutcome records
      = .ok { column_names := header, row_count := 0, rows := [] } := by
  subst hs
  simp [CsvConverter.extractData, hr]

/-- Witness for C6: a sniffed comma delimiter over the single record
`name,age`. -/
theorem claim_C6_witness :
    CsvConverter.extractData (.ok ',') (fun _ => [["name", "age"]])
      = .ok { column_names := ["name", "age"], row_count := 0, rows := [] } :=
  claim_C6_header_only_csv ',' ["name", "age"] _ _ rfl rfl

/-- Concrete `datetime.fromisoformat` outcome used in the C7
counterexample: the only substring it is asked about is the regex-matched
`9999-99-99T99:99:99`, on which the real `fromisoformat` raises
`ValueError` (month 99). -/
def c7FromIso : String → Option String := fun _ => none

/-- Concrete `float` + `datetime.fromtimestamp(..).isoformat()` outcome
used in the C7 counterexample: `1700000000` parses. -/
def c7FromEpoch : String → Option String :=
  fun s => if s = "1700000000" then some "2023-11-14T22:13:20" else none

/-- The C7 counterexample line: the ISO pattern matches a substring that
fails to parse, and a bare 10-digit epoch also occurs on the line. -/
def c7Line : String := "at 9999-99-99T99:99:99 ts 1700000000 done"

/-- C7 is false as stated: on `c7Line` the ISO pattern matches
`9999-99-99T99:99:99`, that matched substring fails to parse, yet the
line is not treated as having no timestamp — the code falls through to
the epoch pattern and returns an `"epoch"` timestamp, so the first
matching pattern did not win either. -/
theorem claim_C7_counterexample :
    searchIso c7Line.data = some "9999-99-99T99:99:99" ∧
    c7FromIso (isoParseArg "9999-99-99T99:99:99") = none ∧
    extractTimestamp c7FromIso c7FromEpoch c7Line
      = some { value := "2023-11-14T22:13:20", raw := "1700000000"
             , format := "epoch" } :=
  ⟨by decide, rfl, by decide⟩

/-- C7 (amended): per line, the ISO8601-like pattern is tried first and
the bare 10-digit epoch-seconds pattern second; a successfully parsed
match of the first pattern wins; when a matched substring fails to
parse, that pattern's attempt is silently abandoned and extraction falls
through to the next pattern (the line has no timestamp only when no
pattern yields a parseable match); line processing never aborts
(`extractTimestamp` is total); in particular a line containing
`2024-01-15T10:30:00Z` yields a non-null timestamp with format tag
`"iso8601"`. -/
theorem claim_C7_amended_timestamp_extraction :
    (∀ (fromIso fromEpoch : String → Option String) (text m v : String),
      searchIso text.data = some m → fromIso (isoParseArg m) = some v →
      extractTimestamp fromIso fromEpoch text
        = some { value := v, raw := m, format := "iso8601" }) ∧
    (∀ (fromIso fromEpoch : String → Option String) (text m : String),
      searchIso text.data = some m → fromIso (isoParseArg m) = none →
      extractTimestamp fromIso fromEpoch text = epochStep fromEpoch text) ∧
    (∀ (fromIso fromEpoch : String → Option String) (text : String),
      searchIso text.data = none →
      extractTimestamp fromIso fromEpoch text = epochStep fromEpoch text) ∧
    (∀ (fromEpoch : String → Option String) (text : String),
      searchEpoch text.data = none → epochStep fromEpoch text = none) ∧
    (∀ (fromIso fromEpoch : String → Option String) (v : String),
      fromIso "2024-01-15T10:30:00+00:00" = some v →
      extractTimestamp fromIso fromEpoch "2024-01-15T10:30:00Z - message"
        = some { value := v, raw := "2024-01-15T10:30:00Z"
               , format := "iso8601" }) := by
  refine ⟨fun fi fe text m v h1 h2 => ?_, fun fi fe text m h1 h2 => ?_,
    fun fi fe text h1 => ?_, fun fe text h1 => ?_, fun fi fe v hv => ?_⟩
  · simp [extractTimestamp, isoStep, h1, h2]
  · simp [extractTimestamp, isoStep, h1, h2]
  · simp [extractTimestamp, isoStep, h1]
  · simp [epochStep, h1]
  · have hs : searchIso "2024-01-15T10:30:00Z - message".data
        = some "2024-01-15T10:30:00Z" := by decide
    have ha : isoParseArg "2024-01-15T10:30:00Z" = "2024-01-15T10:30:00+00:00" := by
      decide
    simp [extractTimestamp, isoStep, hs, ha, hv]

/-- Witness for the amended C7: the spec's own example line with a
`fromisoformat` oracle matching the real library's behavior on the one
string it is asked. -/
theorem claim_C7_witness :
    extractTimestamp
        (fun s => if s = "2024-01-15T10:30:00+00:00"
                  then some "2024-01-15T10:30:00+00:00" else none)
        (fun _ => none) "2024-01-15T10:30:00Z - message"
      = some { value := "2024-01-15T10:30:00+00:00"
             , raw := "2024-01-15T10:30:00Z", format := "iso8601" } :=
  claim_C7_amended_timestamp_extraction.2.2.2.2 _ _ _ (by decide)

/-! ### Archive entry lemmas -/

theorem processZipEntry_filename (depth : Nat) (e : ZipEntry) :
    (processZipEntry depth e).obj.filename = e.filename := by
  unfold processZipEntry
  dsimp only
  split
  · cases e.readOutcome with
    | error pe => rfl
    | ok u =>
      dsimp only
      split
      · cases e.convertOutcome (depth - 1) with
        | error pe => rfl
        | ok d => rfl
      · rfl
  · rfl

theorem processTarEntry_filename (depth : Nat) (m : TarMember) :
    (processTarEntry depth m).obj.filename = m.name := by
  unfold processTarEntry
  dsimp only
  split
  · cases m.extractOutcome with
    | error pe => rfl
    | ok u =>
      dsimp only
      split
      · cases m.convertOutcome (depth - 1) with
        | error pe => rfl
        | ok d => rfl
      · rfl
  · rfl

theorem processZipEntry_content_none_of_error {depth : Nat} {e : ZipEntry}
    {err : PyError} (h : e.convertOutcome (depth - 1) = .error err) :
    (processZipEntry depth e).obj.converted_content = none := by
  unfold processZipEntry
  dsimp only
  split
  · cases e.readOutcome with
    | error pe => rfl
    | ok u =>
      dsimp only
      split
      · rw [h]
      · rfl
  · rfl

theorem processTarEntry_content_none_of_error {depth : Nat} {m : TarMember}
    {err : PyError} (h : m.convertOutcome (depth - 1) = .error err) :
    (processTarEntry depth m).obj.converted_content = none := by
  unfold processTarEntry
  dsimp only
  split
  · cases m.extractOutcome with
    | error pe => rfl
    | ok u =>
      dsimp only
      split
      · rw [h]
      · rfl
  · rfl

theorem processZipEntry_content_some {depth : Nat} {e : ZipEntry} {v : JsonVal}
    (h : (processZipEntry depth e).obj.converted_content = some v) :
    0 < depth ∧ e.detectedType ≠ "binary" ∧
      e.convertOutcome (depth - 1) = .ok v := by
  revert h
  unfold processZipEntry
  dsimp only
  split
  · next hc =>
    cases e.readOutcome with
    | error pe => intro h; exact absurd h (by simp)
    | ok u =>
      dsimp only
      split
      · next hd =>
        cases hv : e.convertOutcome (depth - 1) with
        | error pe => intro h; exact absurd h (by simp)
        | ok d =>
          intro h
          simp only [Option.some.injEq] at h
          exact ⟨hc.2, hd.1, congrArg Except.ok h⟩
      · intro h; exact absurd h (by simp)
  · intro h; exact absurd h (by simp)

theorem processTarEntry_content_some {depth : Nat} {m : TarMember} {v : JsonVal}
    (h : (processTarEntry depth m).obj.converted_content = some v) :
    0 < depth ∧ m.detectedType ≠ "binary" ∧
      m.convertOutcome (depth - 1) = .ok v := by
  revert h
  unfold processTarEntry
  dsimp only
  split
  · next hc =>
    cases m.extractOutcome with
    | error pe => intro h; exact absurd h (by simp)
    | ok u =>
      dsimp only
      split
      · next hd =>
        cases hv : m.convertOutcome (depth - 1) with
        | error pe => intro h; exact absurd h (by simp)
        | ok d =>
          intro h
          simp only [Option.some.injEq] at h
          exact ⟨hc.2, hd.1, congrArg Except.ok h⟩
      · intro h; exact absurd h (by simp)
  · intro h; exact absurd h (by simp)

/-! ### Claims C2, C3, C4 -/

/-- C2: for every archive (zip or tar) with positive recursion budget, if
the conversion of one contained non-directory entry raises, that entry
still appears in the returned listing at its position (without
`converted_content`), every other entry is still processed exactly as it
would have been, and the parent archive's own conversion returns a
listing instead of raising. -/
theorem claim_C2_bad_entry_isolated :
    (∀ (depth : Nat) (entries : List ZipEntry) (i : Nat) (e : ZipEntry)
       (err : PyError),
      0 < depth → entries[i]? = some e →
      e.convertOutcome (depth - 1) = .error err →
      ∃ data, extractZip depth (.ok entries) = .ok data ∧
        data.files.length = entries.length ∧
        data.files[i]? = some ((processZipEntry depth e).obj) ∧
        (processZipEntry depth e).obj.filename = e.filename ∧
        (processZipEntry depth e).obj.converted_content = none ∧
        ∀ j : Nat, data.files[j]?
          = (entries[j]?).map (fun x => (processZipEntry depth x).obj)) ∧
    (∀ (depth : Nat) (members : List TarMember) (i : Nat) (m : TarMember)
       (err : PyError),
      0 < depth → members[i]? = some m →
      m.convertOutcome (depth - 1) = .error err →
      ∃ data, extractTar depth (.ok members) = .ok data ∧
        data.files.length = members.length ∧
        data.files[i]? = some ((processTarEntry depth m).obj) ∧
        (processTarEntry depth m).obj.filename = m.name ∧
        (processTarEntry depth m).obj.converted_content = none ∧
        ∀ j : Nat, data.files[j]?
          = (members[j]?).map (fun x => (processTarEntry depth x).obj)) := by
  constructor
  · intro depth entries i e err _ hi hc
    refine ⟨_, rfl, by simp [extractZip], ?_, processZipEntry_filename depth e,
      processZipEntry_content_none_of_error hc, ?_⟩
    · simp [extractZip, List.getElem?_map, hi]
    · intro j
      simp [extractZip, List.getElem?_map]
  · intro depth members i m err _ hi hc
    refine ⟨_, rfl, by simp [extractTar], ?_, processTarEntry_filename depth m,
      processTarEntry_content_none_of_error hc, ?_⟩
    · simp [extractTar, List.getElem?_map, hi]
    · intro j
      simp [extractTar, List.getElem?_map]

/-- A zip entry whose nested conversion succeeds. -/
def goodZipEntry : ZipEntry :=
  { filename := "ok.json", file_size := 10, compress_size := 8
  , readOutcome := .ok ()
  , detectedType := "json"
  , convertOutcome := fun _ => .ok (.str "payload") }

/-- A zip entry whose nested conversion raises. -/
def badZipEntry : ZipEntry :=
  { filename := "bad.json", file_size := 7, compress_size := 7
  , readOutcome := .ok ()
  , detectedType := "json"
  , convertOutcome := fun _ => .error (.valueError "Invalid JSON: Expecting value") }

/-- A tar member whose nested conversion succeeds. -/
def goodTarMember : TarMember :=
  { name := "ok.json", size := 10, isdir := false, mode := 420
  , mtime := 1700000000
  , extractOutcome := .ok true
  , detectedType := "json"
  , convertOutcome := fun _ => .ok (.str "payload") }

/-- A tar member whose nested conversion raises. -/
def badTarMember : TarMember :=
  { name := "bad.json", size := 7, isdir := false, mode := 420
  , mtime := 1700000000
  , extractOutcome := .ok true
  , detectedType := "json"
  , convertOutcome := fun _ => .error (.valueError "Invalid JSON: Expecting value") }

/-- Witness for C2: a two-entry zip and a two-member tar, each holding a
valid and a corrupt JSON entry; the listing has both entries, only the
valid one carries `converted_content`, and the parent conversion
returns ok. -/
theorem claim_C2_witness :
    (extractZip 3 (.ok [goodZipEntry, badZipEntry])).map
        (fun d => d.files.map (fun o => (o.filename, o.converted_content)))
      = .ok [("ok.json", some (JsonVal.str "payload")), ("bad.json", none)] ∧
    (extractTar 3 (.ok [goodTarMember, badTarMember])).map
        (fun d => d.files.map (fun o => (o.filename, o.converted_content)))
      = .ok [("ok.json", some (JsonVal.str "payload")), ("bad.json", none)] := by
  have hz := claim_C2_bad_entry_isolated.1 3 [goodZipEntry, badZipEntry] 1
    badZipEntry (.valueError "Invalid JSON: Expecting value") (by decide) rfl rfl
  have ht := claim_C2_bad_entry_isolated.2 3 [goodTarMember, badTarMember] 1
    badTarMember (.valueError "Invalid JSON: Expecting value") (by decide) rfl rfl
  exact ⟨rfl, rfl⟩

/-- C3: with the recursion budget exhausted (`0`), no entry of a zip or
tar listing carries `converted_content`, whatever its detected type; and
an entry carries `converted_content` only when the budget is positive,
its detected type is not `binary`, and the nested handler — run with the
budget decremented by one — returned that value. -/
theorem claim_C3_recursion_budget :
    (∀ (entries : List ZipEntry) (data : ArchiveData ZipFileObj),
      extractZip 0 (.ok entries) = .ok data →
      ∀ o ∈ data.files, o.converted_content = none) ∧
    (∀ (members : List TarMember) (data : ArchiveData TarFileObj),
      extractTar 0 (.ok members) = .ok data →
      ∀ o ∈ data.files, o.converted_content = none) ∧
    (∀ (depth : Nat) (e : ZipEntry) (v : JsonVal),
      (processZipEntry depth e).obj.converted_content = some v →
      0 < depth ∧ e.detectedType ≠ "binary" ∧
        e.convertOutcome (depth - 1) = .ok v) ∧
    (∀ (depth : Nat) (m : TarMember) (v : JsonVal),
      (processTarEntry depth m).obj.converted_content = some v →
      0 < depth ∧ m.detectedType ≠ "binary" ∧
        m.convertOutcome (depth - 1) = .ok v) := by
  refine ⟨?_, ?_, fun depth e v h => processZipEntry_content_some h,
    fun depth m v h => processTarEntry_content_some h⟩
  · intro entries data hdata o ho
    cases hdata
    simp only [List.mem_map] at ho
    obtain ⟨e, _, rfl⟩ := ho
    by_contra hne
    obtain ⟨v, hv⟩ := Option.ne_none_iff_exists'.mp hne
    exact absurd (processZipEntry_content_some hv).1 (by simp)
  · intro members data hdata o ho
    cases hdata
    simp only [List.mem_map] at ho
    obtain ⟨m, _, rfl⟩ := ho
    by_contra hne
    obtain ⟨v, hv⟩ := Option.ne_none_iff_exists'.mp hne
    exact absurd (processTarEntry_content_some hv).1 (by simp)

/-- Witness for C3: the "only when" direction applied at budget 3 to a
successfully converted entry, and the budget-0 direction applied to
one-entry archives. -/
theorem claim_C3_witness :
    (0 < 3 ∧ goodZipEntry.detectedType ≠ "binary" ∧
      goodZipEntry.convertOutcome 2 = .ok (JsonVal.str "payload")) ∧
    (0 < 3 ∧ goodTarMember.detectedType ≠ "binary" ∧
      goodTarMember.convertOutcome 2 = .ok (JsonVal.str "payload")) ∧
    (extractZip 0 (.ok [goodZipEntry])).map
        (fun d => d.files.map (fun o => o.converted_content)) = .ok [none] ∧
    (extractTar 0 (.ok [goodTarMember])).map
        (fun d => d.files.map (fun o => o.converted_content)) = .ok [none] := by
  refine ⟨claim_C3_recursion_budget.2.2.1 3 goodZipEntry (JsonVal.str "payload") rfl,
    claim_C3_recursion_budget.2.2.2 3 goodTarMember (JsonVal.str "payload") rfl, ?_, ?_⟩
  · have h := claim_C3_recursion_budget.1 [goodZipEntry] _ rfl
    rfl
  · have h := claim_C3_recursion_budget.2.1 [goodTarMember] _ rfl
    rfl

/-- A regular tar member whose byte extraction
(`tar_ref.extractfile(member)` / `.read()`) raises — e.g. a truncated
archive — after the scratch file has already been created. -/
def truncatedTarMember : TarMember :=
  { name := "data.bin", size := 4096, isdir := false, mode := 420
  , mtime := 1700000000
  , extractOutcome := .error (.ioError "unexpected end of data")
  , detectedType := "binary"
  , convertOutcome := fun _ => .error (.other "never attempted") }

/-- C4 fails on the code: for a tar member whose byte extraction raises,
the scratch file has already been created
(`tempfile.NamedTemporaryFile(delete=False)` opens it first) but the
per-entry exception handler is reached before the `try/finally` that
unlinks it, so the scratch file is not removed even though the entry's
processing returns normally (the member is still listed).  By contrast,
when the extraction succeeds and only the recursive conversion raises,
the `finally` does remove the scratch file. -/
theorem claim_C4_tar_scratch_leak :
    (processTarEntry 3 truncatedTarMember).scratchCreated = true ∧
    (processTarEntry 3 truncatedTarMember).scratchRemoved = false ∧
    (processTarEntry 3 truncatedTarMember).obj.filename = "data.bin" ∧
    (processTarEntry 3 truncatedTarMember).obj.converted_content = none ∧
    (processTarEntry 3 badTarMember).scratchCreated = true ∧
    (processTarEntry 3 badTarMember).scratchRemoved = true :=
  ⟨rfl, rfl, rfl, rfl, rfl, rfl⟩

/-! ### Claim C1 -/

theorem collectResults_failed_files (cfg : ProcConfig) (jobs : List FileJob) :
    (collectResults cfg jobs).failed_files = [] := by
  have key : ∀ (js : List FileJob) (st : RunState),
      (js.foldl
        (fun st job =>
          match futureResult cfg job with
          | .ok (some d) => { st with converted_files := st.converted_files ++ [d] }
          | .ok none => st
          | .error e =>
            { st with failed_files := st.failed_files ++ [(job.path, errText e)] })
        st).failed_files = st.failed_files := by
    intro js
    induction js with
    | nil => intro st; rfl
    | cons j rest ih =>
      intro st
      rw [List.foldl_cons, ih]
      cases hps : processSingleFile cfg j <;> simp [futureResult, hps]
  exact key jobs _

/-- The configuration of the C1 run: no formats filter, no overwrite. -/
def defaultCfg : ProcConfig := { overwrite := false, formats_filter := none }

/-- The single discovered file of the C1 run: a file whose conversion
raises — e.g. a `bad.json` holding malformed JSON, so `convert` raises
an Invalid JSON `ValueError` — and whose output path does not exist. -/
def badJsonJob : FileJob :=
  { path := "/in/bad.json", detectedType := "json"
  , convertOutcome := .error (.valueError "Invalid JSON: Expecting value")
  , outputExists := false, saveOutcome := .ok () }

/-- C1 fails on the code: `_process_single_file` catches every exception
itself and returns `None`, so the failure-recording branch of the
`as_completed` loop in `process` is unreachable — `failed_files` is empty
on every run whatsoever.  Concretely, a directory holding the one file
`bad.json` (N = 1) with no formats filter and no output-exists skip
returns `successful = 0, failed = 0`: the failing file is recorded in
neither count and `successful + failed ≠ N`. -/
theorem claim_C1_failure_never_recorded :
    (∀ (cfg : ProcConfig) (jobs : List FileJob),
      (collectResults cfg jobs).failed_files = [] ∧
      (FileProcessor.process cfg jobs).failed = 0) ∧
    FileProcessor.process defaultCfg [badJsonJob]
      = { successful := 0, failed := 0 } ∧
    (FileProcessor.process defaultCfg [badJsonJob]).successful
        + (FileProcessor.process defaultCfg [badJsonJob]).failed = 0 ∧
    [badJsonJob].length = 1 := by
  refine ⟨fun cfg jobs => ⟨collectResults_failed_files cfg jobs, ?_⟩, rfl, rfl, rfl⟩
  simp [FileProcessor.process, collectResults_failed_files]

end ConverterTool
